import Mathlib

/-!
Verification of the fmu-runner FMI 2.0 runtime.

This file gives a shallow embedding of the runtime's data model and
operations (`src/fmu.rs`, `src/model_description.rs`) and proves the
specification's claims about them.

Conventions of the embedding:
* filesystem paths, io errors, XML-deserialization errors and zip error
  payloads are modelled as strings (they are opaque payloads to the code);
* Rust `f64` is modelled as `Float`; no floating-point arithmetic is
  performed anywhere in the embedded code, values are only moved around;
* fallible Rust functions returning `Result` become `Except`;
* code that can panic (`unwrap`) returns an explicit outcome type with a
  `panic` constructor;
* effectful operations (filesystem access, native FMI calls) take an
  explicit oracle describing the environment's responses and additionally
  return the trace of calls they issued, so that claims about which native
  calls happen, in which order and with which arguments can be stated.
-/

/-- FMI 2.0 status codes (`fmi2Status` in libfmi). -/
inductive fmi2Status
  | fmi2OK
  | fmi2Warning
  | fmi2Discard
  | fmi2Error
  | fmi2Fatal
  | fmi2Pending
deriving DecidableEq, Repr

/-- FMI 2.0 simulation kinds (`fmi2Type` in libfmi). -/
inductive fmi2Type
  | fmi2ModelExchange
  | fmi2CoSimulation
deriving DecidableEq, Repr

/-- `Causality` from `model_description.rs`. -/
inductive Causality
  | parameter
  | calculatedParameter
  | input
  | output
  | local
  | independent
deriving DecidableEq, Repr

/-- `Variability` from `model_description.rs`. -/
inductive Variability
  | constant
  | fixed
  | tunable
  | discrete
  | continuous
deriving DecidableEq, Repr

/-- `Initial` from `model_description.rs`. -/
inductive Initial
  | exact
  | approx
  | calculated
deriving DecidableEq, Repr

/-- `Real` element payload from `model_description.rs`. -/
structure RealAttrs where
  declared_type : Option String
  start : Option Float
  derivative : Option Nat
  reinit : Option Bool

/-- `Integer` element payload from `model_description.rs`. -/
structure IntegerAttrs where
  declared_type : Option String
  start : Option Int

/-- `Boolean` element payload from `model_description.rs`. -/
structure BooleanAttrs where
  declared_type : Option String
  start : Option Bool

/-- `SignalType` from `model_description.rs`: the value-kind discriminant of
a scalar variable together with its kind-specific attributes. -/
inductive SignalType
  | real (attrs : RealAttrs)
  | integer (attrs : IntegerAttrs)
  | boolean (attrs : BooleanAttrs)
  | string
  | enumeration

/-- `ScalarVariable` from `model_description.rs`. `value_reference` is the
native numeric handle (`c_uint` in the source, modelled as `Nat`). -/
structure ScalarVariable where
  name : String
  value_reference : Nat
  description : String
  causality : Causality
  variability : Variability
  initial : Option Initial
  can_handle_multiple_set_per_time_instant : Option Bool
  annotations : Option Unit
  signal_type : SignalType

/-- The `PartialEq for ScalarVariable` impl: equality is by `name` only. -/
def svBeq (a b : ScalarVariable) : Bool :=
  a.name == b.name

/-- The `Hash for ScalarVariable` impl: only `name` is fed to the hasher,
so for any hasher the hash of a variable is the hash of its name. -/
def svHash (hasher : String → UInt64) (v : ScalarVariable) : UInt64 :=
  hasher v.name

/-- `HashMap::insert` semantics for a map keyed by `ScalarVariable` (its
`Eq`/`Hash` being the name-only impls above): if a key with the same name is
present its value is replaced and the stored key is kept, otherwise a new
entry is added. -/
def insertSv {T : Type} (k : ScalarVariable) (v : T) :
    List (ScalarVariable × T) → List (ScalarVariable × T)
  | [] => [(k, v)]
  | p :: rest => if svBeq k p.1 then (p.1, v) :: rest else p :: insertSv k v rest

/-- `HashMap` lookup for a map keyed by `ScalarVariable` under the
name-only `Eq` impl. -/
def lookupSv {T : Type} (k : ScalarVariable) (m : List (ScalarVariable × T)) : Option T :=
  (m.find? fun p => svBeq k p.1).map (·.2)

/-- `.collect::<HashMap<_, _>>()` over a list of key-value pairs: repeated
`HashMap::insert` starting from the empty map. -/
def collectSv {T : Type} (l : List (ScalarVariable × T)) : List (ScalarVariable × T) :=
  l.foldl (fun m p => insertSv p.1 p.2 m) []

/-- `HashMap::insert` semantics for a `String`-keyed map. -/
def insertStr {T : Type} (k : String) (v : T) :
    List (String × T) → List (String × T)
  | [] => [(k, v)]
  | p :: rest => if k == p.1 then (p.1, v) :: rest else p :: insertStr k v rest

/-- `HashMap` lookup for a `String`-keyed map. -/
def lookupStr {T : Type} (k : String) (m : List (String × T)) : Option T :=
  (m.find? fun p => k == p.1).map (·.2)

/-- XML deserialization error (`quick_xml::DeError`), opaque payload. -/
abbrev DeErr : Type := String

/-- `deserialize_to_map` from `model_description.rs`: deserialize the
`ScalarVariable` list (already decoded here; element decoding errors are the
only failure source in the original and are out of scope of the map
construction itself) and insert each element into a `HashMap` keyed by its
name, in document order. -/
def deserialize_to_map (v : List ScalarVariable) :
    Except DeErr (List (String × ScalarVariable)) :=
  .ok (v.foldl (fun map item => insertStr item.name item map) [])

/-- `ModelVariables` from `model_description.rs`: the variable registry,
a map from variable name to `ScalarVariable`. -/
structure ModelVariables where
  scalar_variable : List (String × ScalarVariable)

/-- `FMIFile` from `model_description.rs`. -/
structure FMIFile where
  name : String

/-- `FMISourceFiles` from `model_description.rs`. -/
structure FMISourceFiles where
  file : List FMIFile

/-- `ModelExchange` capability block from `model_description.rs`. -/
structure ModelExchange where
  source_files : FMISourceFiles
  model_identifier : String
  needs_execution_tool : Bool
  completed_integrator_step_not_needed : Bool
  can_be_instantiated_only_once_per_process : Bool
  can_not_use_memory_management_functions : Bool
  can_get_and_set_fmustate : Bool
  can_serialize_fmustate : Bool
  provides_directional_derivative : Bool

/-- `CoSimulation` capability block from `model_description.rs`. -/
structure CoSimulation where
  source_files : FMISourceFiles
  model_identifier : String
  needs_execution_tool : Bool
  can_handle_variable_communication_step_size : Bool
  can_interpolate_inputs : Bool
  max_output_derivative_order : Bool
  can_run_asynchronuously : Bool
  can_be_instantiated_only_once_per_process : Bool
  can_not_use_memory_management_functions : Bool
  can_get_and_set_fmustate : Bool
  can_serialize_fmustate : Bool
  provides_directional_derivative : Bool

/-- `DefaultExperiment` from `model_description.rs`. -/
structure DefaultExperiment where
  start_time : Float
  stop_time : Float
  tolerance : Float
  step_size : Option Float

/-- `Category` from `model_description.rs`. -/
structure Category where
  name : String
  description : String

/-- `LogCategories` from `model_description.rs`. -/
structure LogCategories where
  category : List Category

/-- `BaseUnit` from `model_description.rs`. -/
structure BaseUnit where
  kg : Option Int
  m : Option Int
  s : Option Int
  A : Option Int
  K : Option Int
  mol : Option Int
  cd : Option Int
  rad : Option Int
  factor : Option Float
  offset : Option Float

/-- `DisplayUnit` from `model_description.rs`. -/
structure DisplayUnit where
  name : String
  factor : Option Float
  offset : Option Float

/-- `Unit` from `model_description.rs`. -/
structure FmiUnit where
  name : String
  base_unit : Option BaseUnit
  display_unit : List DisplayUnit
  offset : Float

/-- `UnitDefinitions` from `model_description.rs`. -/
structure UnitDefinitions where
  unit : List FmiUnit

/-- `FmiModelDescription` from `model_description.rs`. -/
structure FmiModelDescription where
  co_simulation : Option CoSimulation
  model_exchange : Option ModelExchange
  model_variables : ModelVariables
  unit_definitions : Option UnitDefinitions
  log_categories : Option LogCategories
  default_experiment : Option DefaultExperiment
  fmi_version : String
  model_name : String
  guid : String
  description : String
  author : String
  version : String
  copyright : String
  license : String
  generation_tool : String
  generation_date_and_time : String
  variable_naming_convention : String
  number_of_event_indicators : String

/-- Filesystem path, opaque to the code. -/
abbrev FsPath : Type := String

/-- `std::io::Error`, opaque payload. -/
abbrev IOErr : Type := String

/-- An opened `std::fs::File` handle, opaque token. -/
abbrev FileHandle : Type := String

/-- A constructed `zip::ZipArchive`, opaque token. -/
abbrev Archive : Type := String

/-- `zip::result::ZipError`: either an io error (the `ZipError::Io` variant,
which `unpack_to` unwraps) or any other zip error payload. -/
inductive ZipErr
  | io (e : IOErr)
  | other (kind : String)

/-- `FmuUnpackError` from `fmu.rs`. -/
inductive FmuUnpackError
  | noTempdir (e : IOErr)
  | invalidFile (e : IOErr)
  | invalidOutputDir (e : IOErr)
  | invalidArchive (e : ZipErr)
  | invalidModelDescription (e : DeErr)

/-- `FmuLoadError` from `fmu.rs`. -/
inductive FmuLoadError
  | noCoSimulationModel
  | noModelExchangeModel
  | dlOpen (e : String)
deriving DecidableEq, Repr

/-- `FmuError` from `fmu.rs`. -/
inductive FmuError
  | badFunctionCall (status : fmi2Status)
  | fmuInstantiateFailed
deriving DecidableEq, Repr

/-- The filesystem / external-library oracle the unpack path runs against:
each field gives the environment's response to one effectful operation
`unpack` / `unpack_to` performs (tempdir creation, path canonicalization,
file open, zip open, zip extraction, file read, XML deserialization). -/
structure FS where
  tempdir : Except IOErr FsPath
  canonicalize : FsPath → Except IOErr FsPath
  openFile : FsPath → Except IOErr FileHandle
  zipNew : FileHandle → Except ZipErr Archive
  extract : Archive → FsPath → Except ZipErr Unit
  readToString : FsPath → Except IOErr String
  parseXml : String → Except DeErr FmiModelDescription

/-- The trace of filesystem operations performed by the unpack path. -/
inductive FsEvent
  | createTempDir (d : FsPath)
  | canonicalize (p : FsPath)
  | openFile (p : FsPath)
  | zipNew (f : FileHandle)
  | extract (target : FsPath)
  | readToString (p : FsPath)
  | dropTempDir (d : FsPath)

/-- Outcome of `FmiModelDescription::new`: result, XML error, or a Rust
panic (carrying the io error that was `unwrap`ped). -/
inductive NewOutcome
  | ok (md : FmiModelDescription)
  | err (e : DeErr)
  | panic (e : IOErr)

/-- `FmiModelDescription::new` from `model_description.rs`:
`fs::read_to_string(path).unwrap()` followed by `from_str`. A failing read
is `unwrap`ped, i.e. it panics instead of returning an error. -/
def FmiModelDescription.new (fs : FS) (path : FsPath) : List FsEvent × NewOutcome :=
  ([.readToString path],
    match fs.readToString path with
    | .error e => .panic e
    | .ok text =>
      match fs.parseXml text with
      | .error e => .err e
      | .ok md => .ok md)

/-- `Fmu` from `fmu.rs`: an unpacked FMU with a parsed model description. -/
structure Fmu where
  temp_dir : Option FsPath
  unpacked_dir : FsPath
  model_description : FmiModelDescription

/-- Outcome of `unpack` / `unpack_to`: result, `FmuUnpackError`, or a Rust
panic propagated from `FmiModelDescription::new`. -/
inductive UnpackOutcome
  | ok (fmu : Fmu)
  | err (e : FmuUnpackError)
  | panic (e : IOErr)

/-- `Fmu::unpack_to` from `fmu.rs`: canonicalize the bundle path, open it,
open it as a zip archive, extract into `target_dir`, then parse
`modelDescription.xml` from the target directory. Each io / zip / XML
failure is mapped to its `FmuUnpackError` variant exactly as in the source;
a panic from `FmiModelDescription::new` propagates. -/
def Fmu.unpack_to (fs : FS) (fmu_path target_dir : FsPath) :
    List FsEvent × UnpackOutcome :=
  match fs.canonicalize fmu_path with
  | .error e => ([.canonicalize fmu_path], .err (.invalidFile e))
  | .ok fmu_path' =>
    match fs.openFile fmu_path' with
    | .error e => ([.canonicalize fmu_path, .openFile fmu_path'], .err (.invalidFile e))
    | .ok zipfile =>
      match fs.zipNew zipfile with
      | .error (.io e) =>
        ([.canonicalize fmu_path, .openFile fmu_path', .zipNew zipfile],
          .err (.invalidFile e))
      | .error (.other k) =>
        ([.canonicalize fmu_path, .openFile fmu_path', .zipNew zipfile],
          .err (.invalidArchive (.other k)))
      | .ok archive =>
        match fs.extract archive target_dir with
        | .error (.io e) =>
          ([.canonicalize fmu_path, .openFile fmu_path', .zipNew zipfile,
            .extract target_dir], .err (.invalidOutputDir e))
        | .error (.other k) =>
          ([.canonicalize fmu_path, .openFile fmu_path', .zipNew zipfile,
            .extract target_dir], .err (.invalidArchive (.other k)))
        | .ok () =>
          let prefixTrace : List FsEvent :=
            [.canonicalize fmu_path, .openFile fmu_path', .zipNew zipfile,
              .extract target_dir]
          let (newTrace, out) :=
            FmiModelDescription.new fs (target_dir ++ "/modelDescription.xml")
          (prefixTrace ++ newTrace,
            match out with
            | .panic e => .panic e
            | .err e => .err (.invalidModelDescription e)
            | .ok md =>
              .ok { temp_dir := none, unpacked_dir := target_dir,
                    model_description := md })

/-- `Fmu::unpack` from `fmu.rs`: create an ephemeral temporary directory and
`unpack_to` it. On success the temporary directory is moved into the
returned `Fmu` (kept alive); on an error return or a panic unwind the local
`TempDir` value is dropped, which deletes the directory (`dropTempDir`). -/
def Fmu.unpack (fs : FS) (fmu_path : FsPath) : List FsEvent × UnpackOutcome :=
  match fs.tempdir with
  | .error e => ([], .err (.noTempdir e))
  | .ok d =>
    let (tr, out) := Fmu.unpack_to fs fmu_path d
    match out with
    | .ok fmu =>
      (.createTempDir d :: tr,
        .ok { temp_dir := some d, unpacked_dir := fmu.unpacked_dir,
              model_description := fmu.model_description })
    | .err e => (.createTempDir d :: (tr ++ [.dropTempDir d]), .err e)
    | .panic e => (.createTempDir d :: (tr ++ [.dropTempDir d]), .panic e)

/-- The `env::consts::OS` match in `Fmu::load`: operating-system name to
(binaries subdirectory component, shared-library extension). -/
def osConsts (os : String) : String × String :=
  match os with
  | "macos" => ("darwin", "dylib")
  | "linux" => ("linux", "so")
  | "windows" => ("win", "dll")
  | _ => ("unknown", "so")

/-- The `env::consts::ARCH` match in `Fmu::load`: architecture name to
bit-width directory component. -/
def archConsts (arch : String) : String :=
  match arch with
  | "x86" => "32"
  | "x86_64" => "64"
  | "aarch64" => "64"
  | _ => "unknown"

/-- The dynamic-library load that `FmuLibrary::load` would attempt
(`Fmi2Dll::new(lib_path)`): the resolved library path together with the
simulation type and model identifier. Producing this value models reaching
`FmuLibrary::load`; an `Except.error` from `Fmu::load` means the dynamic
library is never opened. -/
structure LoadRequest where
  lib_path : FsPath
  simulation_type : fmi2Type
  model_identifier : String
deriving DecidableEq, Repr

/-- `Fmu::load` from `fmu.rs`: select the model identifier from the
capability block matching the requested simulation type (failing with the
mode-not-supported error if that block is absent), resolve the
platform-specific library path `binaries/<os><bits>/<modelIdentifier>.<ext>`
under the unpacked directory, and hand it to `FmuLibrary::load`. -/
def Fmu.load (fmu : Fmu) (simulation_type : fmi2Type) (os arch : String) :
    Except FmuLoadError LoadRequest :=
  let (os_type, lib_type) := osConsts os
  let arch_type := archConsts arch
  match
    (match simulation_type with
      | .fmi2ModelExchange =>
        match fmu.model_description.model_exchange with
        | none => Except.error FmuLoadError.noModelExchangeModel
        | some me => Except.ok me.model_identifier
      | .fmi2CoSimulation =>
        match fmu.model_description.co_simulation with
        | none => Except.error FmuLoadError.noCoSimulationModel
        | some cs => Except.ok cs.model_identifier) with
  | .error e => .error e
  | .ok model_identifier =>
    let lib_str := os_type ++ arch_type
    let lib_path :=
      fmu.unpacked_dir ++ "/binaries/" ++ lib_str ++ "/" ++ model_identifier
        ++ "." ++ lib_type
    .ok { lib_path := lib_path, simulation_type := simulation_type,
          model_identifier := model_identifier }

/-- Decimal digits of a natural number, most significant first: the digit
string `format!("{}")` produces for a `usize`. -/
def decimalDigits (n : Nat) : List Char :=
  if _h : n < 10 then [Nat.digitChar n]
  else decimalDigits (n / 10) ++ [Nat.digitChar (n % 10)]
decreasing_by exact Nat.div_lt_self (by omega) (by omega)

/-- `format!("{}", n)` for an unsigned integer: its decimal representation. -/
def natToDecimalString (n : Nat) : String :=
  (decimalDigits n).asString

/-- `InstanceNameFactory` from `fmu.rs`: the per-library instance-name
generator. `instance_counter` is the `AtomicUsize`: a 64-bit machine word,
represented as a `Nat` kept below `2 ^ 64` by the wrapping increment. -/
structure InstanceNameFactory where
  model_identifier : String
  instance_counter : Nat
deriving DecidableEq, Repr

/-- `InstanceNameFactory::new`: counter starts at 0. -/
def InstanceNameFactory.new (model_identifier : String) : InstanceNameFactory :=
  { model_identifier := model_identifier, instance_counter := 0 }

/-- `InstanceNameFactory::next`: `fetch_add(1, Relaxed)` on the counter —
which returns the previous machine-word value and stores the incremented
value wrapping modulo `2 ^ 64` (the counter is an `AtomicUsize`, a 64-bit
machine word) — and `format!("{}_{}", model_identifier, counter)` on the
fetched value. Returns the generated name together with the factory's next
state. -/
def InstanceNameFactory.next (f : InstanceNameFactory) :
    String × InstanceNameFactory :=
  (f.model_identifier ++ "_" ++ natToDecimalString f.instance_counter,
    { f with instance_counter := (f.instance_counter + 1) % 2 ^ 64 })

/-- The argument tuple `FmuInstance::setup_experiment` passes to the native
`fmi2SetupExperiment` entry point, fields in the native argument order. -/
structure SetupExperimentCall where
  tolerance_defined : Bool
  tolerance : Float
  start_time : Float
  stop_time_defined : Bool
  stop_time : Float

/-- `FmuInstance::setup_experiment` from `fmu.rs`: marshals the optional
tolerance and stop time into (defined-flag, value-or-0.0) pairs and passes
the start time through; this value is the exact native argument tuple. -/
def FmuInstance.setup_experiment (start_time : Float)
    (stop_time tolerance : Option Float) : SetupExperimentCall :=
  { tolerance_defined := tolerance.isSome
    tolerance := tolerance.getD 0.0
    start_time := start_time
    stop_time_defined := stop_time.isSome
    stop_time := stop_time.getD 0.0 }

/-- One native snapshot-related FMI call, with the arguments handed to the
native side. `state` is the opaque `fmi2FMUstate` handle (modelled as a
number), `buf_len` the length of the caller's byte slice, `size` the count
argument passed alongside it. -/
inductive SnapCall
  | getFMUstate
  | serializedFMUstateSize (state : Nat)
  | serializeFMUstate (state : Nat) (buf_len : Nat) (size : Nat)
  | deSerializeFMUstate (buf_len : Nat) (size : Nat)
  | setFMUstate (state : Nat)
  | freeFMUstate (state : Nat)
deriving DecidableEq, Repr

/-- Oracle for the native snapshot entry points: the status (and out-values)
the loaded library returns for each call. -/
structure SnapshotNative where
  getFMUstate : fmi2Status × Nat
  serializedFMUstateSize : Nat → fmi2Status × Nat
  serializeFMUstate : Nat → Nat → fmi2Status
  deSerializeFMUstate : Nat → fmi2Status × Nat
  setFMUstate : Nat → fmi2Status
  freeFMUstate : Nat → fmi2Status

/-- `FmuInstance::serialized_fmu_state_size` from `fmu.rs`: capture the
current state (`fmi2GetFMUstate`), compute its serialized size
(`fmi2SerializedFMUstateSize`, written through the `size` out-parameter),
release the capture (`fmi2FreeFMUstate`). Each status is checked through
`ok_or_err`; a non-OK status stops the sequence via `?` and is returned as
`BadFunctionCall`. Returns (trace, final value of the `size` out-parameter
whose initial value is `size0`, result). -/
def FmuInstance.serialized_fmu_state_size (native : SnapshotNative)
    (size0 : Nat) : List SnapCall × Nat × Except FmuError Unit :=
  let (s1, st) := native.getFMUstate
  match s1 with
  | .fmi2OK =>
    let (s2, n) := native.serializedFMUstateSize st
    match s2 with
    | .fmi2OK =>
      match native.freeFMUstate st with
      | .fmi2OK =>
        ([.getFMUstate, .serializedFMUstateSize st, .freeFMUstate st], n, .ok ())
      | s3 =>
        ([.getFMUstate, .serializedFMUstateSize st, .freeFMUstate st], n,
          .error (.badFunctionCall s3))
    | s2 =>
      ([.getFMUstate, .serializedFMUstateSize st], n,
        .error (.badFunctionCall s2))
  | s1 => ([.getFMUstate], size0, .error (.badFunctionCall s1))

/-- `FmuInstance::serialize_fmu_state` from `fmu.rs`: capture the current
state, serialize it into the caller's byte slice (passing the slice pointer
and the caller's `size` argument to `fmi2SerializeFMUstate`; the slice
length is not compared against `size`), release the capture. Statuses are
checked through `ok_or_err` as in the source. -/
def FmuInstance.serialize_fmu_state (native : SnapshotNative)
    (serialized_state : List UInt8) (size : Nat) :
    List SnapCall × Except FmuError Unit :=
  let (s1, st) := native.getFMUstate
  match s1 with
  | .fmi2OK =>
    match native.serializeFMUstate st size with
    | .fmi2OK =>
      match native.freeFMUstate st with
      | .fmi2OK =>
        ([.getFMUstate, .serializeFMUstate st serialized_state.length size,
          .freeFMUstate st], .ok ())
      | s3 =>
        ([.getFMUstate, .serializeFMUstate st serialized_state.length size,
          .freeFMUstate st], .error (.badFunctionCall s3))
    | s2 =>
      ([.getFMUstate, .serializeFMUstate st serialized_state.length size],
        .error (.badFunctionCall s2))
  | s1 => ([.getFMUstate], .error (.badFunctionCall s1))

/-- `FmuInstance::deserialize_fmu_state` from `fmu.rs`: reconstruct a state
handle from the caller's byte slice (passing the slice pointer and the
caller's `size` argument to `fmi2DeSerializeFMUstate`; the slice length is
not compared against `size`), apply it (`fmi2SetFMUstate`), release it.
Statuses are checked through `ok_or_err` as in the source. -/
def FmuInstance.deserialize_fmu_state (native : SnapshotNative)
    (serialized_state : List UInt8) (size : Nat) :
    List SnapCall × Except FmuError Unit :=
  let (s1, st) := native.deSerializeFMUstate size
  match s1 with
  | .fmi2OK =>
    match native.setFMUstate st with
    | .fmi2OK =>
      match native.freeFMUstate st with
      | .fmi2OK =>
        ([.deSerializeFMUstate serialized_state.length size, .setFMUstate st,
          .freeFMUstate st], .ok ())
      | s3 =>
        ([.deSerializeFMUstate serialized_state.length size, .setFMUstate st,
          .freeFMUstate st], .error (.badFunctionCall s3))
    | s2 =>
      ([.deSerializeFMUstate serialized_state.length size, .setFMUstate st],
        .error (.badFunctionCall s2))
  | s1 =>
    ([.deSerializeFMUstate serialized_state.length size],
      .error (.badFunctionCall s1))

/-- `FmuInstance::ok_or_err` from `fmu.rs`: `fmi2OK` is success, every
other status becomes `BadFunctionCall` carrying that status. -/
def FmuInstance.ok_or_err (status : fmi2Status) : Except FmuError Unit :=
  match status with
  | .fmi2OK => .ok ()
  | status => .error (.badFunctionCall status)

/-- The argument sizes of one native `fmi2Get*` call: the value-reference
array, the count argument `nvr`, and the length of the output buffer the
call receives. -/
structure GetCall where
  vrs : List Nat
  nvr : Nat
  buffer_len : Nat
deriving DecidableEq, Repr

/-- `FmuInstance::get` from `fmu.rs` (the generic marshaler behind
`get_reals` / `get_integers` / `get_booleans`): allocate an output buffer of
exactly `signals.len()` elements, issue one native call with the parallel
value-reference array and the count `signals.len()`, and on `fmi2OK` zip the
requested variables with the buffer and collect into a `HashMap`; any other
status becomes `BadFunctionCall` carrying it, with no map returned. `func`
is the native oracle: given the value-reference array and the count, it
returns the status and the output buffer's contents after the call. -/
def FmuInstance.get {T : Type} (signals : List ScalarVariable)
    (func : List Nat → Nat → fmi2Status × List T) :
    List GetCall × Except FmuError (List (ScalarVariable × T)) :=
  let vrs := signals.map (fun s => s.value_reference)
  let n := signals.length
  let (status, values) := func vrs n
  ([{ vrs := vrs, nvr := n, buffer_len := n }],
    match status with
    | .fmi2OK => .ok (collectSv (signals.zip values))
    | status => .error (.badFunctionCall status))

theorem lookupStr_insertStr {T : Type} (k k' : String) (v : T)
    (m : List (String × T)) :
    lookupStr k (insertStr k' v m) = if k = k' then some v else lookupStr k m := by
  induction m with
  | nil =>
    by_cases h : k = k'
    · have e : (k == k') = true := by simp [h]
      simp [insertStr, lookupStr, List.find?, e, h]
    · have e : (k == k') = false := by simp [h]
      simp [insertStr, lookupStr, List.find?, e, h]
  | cons p rest ih =>
    by_cases h1 : k' = p.1
    · by_cases h2 : k = p.1
      · have e1 : (k' == p.1) = true := by simp [h1]
        have e2 : (k == p.1) = true := by simp [h2]
        simp [insertStr, lookupStr, List.find?, e1, e2, h1 ▸ h2]
      · have h3 : ¬ k = k' := fun h => h2 (h1 ▸ h)
        have e1 : (k' == p.1) = true := by simp [h1]
        have e2 : (k == p.1) = false := by simp [h2]
        simp [insertStr, lookupStr, List.find?, e1, e2, h3]
    · by_cases h2 : k = p.1
      · have h3 : ¬ k = k' := fun h => h1 (by rw [← h, h2])
        have e1 : (k' == p.1) = false := by simp [h1]
        have e2 : (k == p.1) = true := by simp [h2]
        simp [insertStr, lookupStr, List.find?, e1, e2, h3]
      · have e1 : (k' == p.1) = false := by simp [h1]
        have e2 : (k == p.1) = false := by simp [h2]
        simpa [insertStr, lookupStr, List.find?, e1, e2] using ih

theorem lookupStr_foldl_insert (l : List ScalarVariable)
    (m0 : List (String × ScalarVariable)) (k : String) :
    lookupStr k (l.foldl (fun map item => insertStr item.name item map) m0)
      = ((l.filter fun v => v.name == k).getLast?).or (lookupStr k m0) := by
  induction l using List.reverseRecOn generalizing m0 with
  | nil => simp
  | append_singleton l x ih =>
    rw [List.foldl_append]
    simp only [List.foldl_cons, List.foldl_nil]
    rw [lookupStr_insertStr, List.filter_append]
    by_cases h : x.name = k
    · simp [h, List.getLast?_concat]
    · have h' : ¬ k = x.name := fun hk => h hk.symm
      simp [h, h', ih]

/-- C9: for a parsed model description in which two or more `ScalarVariable`
entries share a name, `deserialize_to_map` succeeds and the registry maps
that name to the last occurrence in document order; earlier duplicates are
silently overwritten, never reported as an error. -/
theorem deserialize_to_map_last_occurrence_wins (vars : List ScalarVariable)
    (name : String) :
    ∃ m, deserialize_to_map vars = .ok m ∧
      lookupStr name m = (vars.filter fun v => v.name == name).getLast? := by
  refine ⟨_, rfl, ?_⟩
  rw [lookupStr_foldl_insert]
  simp [lookupStr, List.find?]

/-- C10: `ScalarVariable` equality and hashing depend only on the `name`
field: variables with equal names are `==`, hash identically under any
hasher, and collide as `HashMap` keys (inserting under the second leaves a
single entry, overwriting the first one's value). -/
theorem scalar_variable_identity_is_name (a b : ScalarVariable)
    (h : a.name = b.name) :
    svBeq a b = true
    ∧ (∀ hasher : String → UInt64, svHash hasher a = svHash hasher b)
    ∧ ∀ (T : Type) (va vb : T), insertSv b vb (insertSv a va []) = [(a, vb)] := by
  refine ⟨by simp [svBeq, h], fun hasher => by simp [svHash, h], ?_⟩
  intro T va vb
  have e : (b.name == a.name) = true := by simp [h]
  simp [insertSv, svBeq, e]

/-- A concrete input variable (`signal_type` has the string value kind so
that all fields are decidably comparable). -/
def svA : ScalarVariable :=
  { name := "x", value_reference := 0, description := "", causality := .input,
    variability := .continuous, initial := none,
    can_handle_multiple_set_per_time_instant := none, annotations := none,
    signal_type := .string }

/-- Same name as `svA`, different value reference and causality. -/
def svB : ScalarVariable :=
  { svA with value_reference := 1, causality := .output }

theorem scalar_variable_identity_is_name_witness :
    svBeq svA svB = true
    ∧ svHash (fun s => UInt64.ofNat s.length) svA
        = svHash (fun s => UInt64.ofNat s.length) svB
    ∧ insertSv svB (2 : Nat) (insertSv svA 1 []) = [(svA, 2)] :=
  ⟨(scalar_variable_identity_is_name svA svB rfl).1,
   (scalar_variable_identity_is_name svA svB rfl).2.1 (fun s => UInt64.ofNat s.length),
   (scalar_variable_identity_is_name svA svB rfl).2.2 Nat 1 2⟩

theorem lookupSv_insertSv {T : Type} (k k' : ScalarVariable) (v : T)
    (m : List (ScalarVariable × T)) :
    lookupSv k (insertSv k' v m)
      = if k.name = k'.name then some v else lookupSv k m := by
  induction m with
  | nil =>
    by_cases h : k.name = k'.name
    · have e : svBeq k k' = true := by simp [svBeq, h]
      simp [insertSv, lookupSv, List.find?, e, h]
    · have e : svBeq k k' = false := by simp [svBeq, h]
      simp [insertSv, lookupSv, List.find?, e, h]
  | cons p rest ih =>
    by_cases h1 : k'.name = p.1.name
    · by_cases h2 : k.name = p.1.name
      · have e1 : svBeq k' p.1 = true := by simp [svBeq, h1]
        have e2 : svBeq k p.1 = true := by simp [svBeq, h2]
        have h3 : k.name = k'.name := by rw [h2, h1]
        simp [insertSv, lookupSv, List.find?, e1, e2, h3]
      · have h3 : ¬ k.name = k'.name := fun h => h2 (by rw [h, h1])
        have e1 : svBeq k' p.1 = true := by simp [svBeq, h1]
        have e2 : svBeq k p.1 = false := by simp [svBeq, h2]
        simp [insertSv, lookupSv, List.find?, e1, e2, h3]
    · by_cases h2 : k.name = p.1.name
      · have h3 : ¬ k.name = k'.name := fun h => h1 (by rw [← h, h2])
        have e1 : svBeq k' p.1 = false := by simp [svBeq, h1]
        have e2 : svBeq k p.1 = true := by simp [svBeq, h2]
        simp [insertSv, lookupSv, List.find?, e1, e2, h3]
      · have e1 : svBeq k' p.1 = false := by simp [svBeq, h1]
        have e2 : svBeq k p.1 = false := by simp [svBeq, h2]
        simpa [insertSv, lookupSv, List.find?, e1, e2] using ih

theorem lookupSv_foldl_insert_isSome {T : Type} (l : List (ScalarVariable × T))
    (m0 : List (ScalarVariable × T)) (v : ScalarVariable) :
    (lookupSv v (l.foldl (fun m p => insertSv p.1 p.2 m) m0)).isSome
      ↔ (∃ p ∈ l, p.1.name = v.name) ∨ (lookupSv v m0).isSome := by
  induction l generalizing m0 with
  | nil => simp
  | cons p l ih =>
    rw [List.foldl_cons, ih]
    rw [lookupSv_insertSv]
    by_cases h : v.name = p.1.name
    · simp [h]
    · have h' : ¬ p.1.name = v.name := fun hh => h hh.symm
      simp [h, h', or_assoc]

theorem lookupSv_collectSv_isSome {T : Type} (l : List (ScalarVariable × T))
    (v : ScalarVariable) :
    (lookupSv v (collectSv l)).isSome ↔ ∃ p ∈ l, p.1.name = v.name := by
  rw [collectSv, lookupSv_foldl_insert_isSome]
  simp [lookupSv, List.find?]

theorem exists_fst_zip {A B : Type} (l1 : List A) (l2 : List B)
    (hlen : l2.length = l1.length) (P : A → Prop) :
    (∃ p ∈ l1.zip l2, P p.1) ↔ ∃ s ∈ l1, P s := by
  constructor
  · rintro ⟨⟨a, b⟩, hp, hP⟩
    exact ⟨a, (List.of_mem_zip hp).1, hP⟩
  · rintro ⟨s, hs, hP⟩
    rw [← List.map_fst_zip l1 l2 (le_of_eq hlen.symm)] at hs
    obtain ⟨p, hp, rfl⟩ := List.mem_map.mp hs
    exact ⟨p, hp, hP⟩

/-- C3: `FmuInstance::get` issues exactly one native call whose
value-reference array, count argument and output buffer are all sized
exactly to the request; on `fmi2OK` it returns a mapping whose keys are
exactly the requested variables, and on any other status it returns
`BadFunctionCall` carrying that exact status, with no partial results. -/
theorem get_one_call_all_or_nothing {T : Type} (signals : List ScalarVariable)
    (func : List Nat → Nat → fmi2Status × List T)
    (hbuf : ((func (signals.map fun s => s.value_reference) signals.length).2).length
      = signals.length) :
    (FmuInstance.get signals func).1
      = [{ vrs := signals.map fun s => s.value_reference,
           nvr := signals.length, buffer_len := signals.length }]
    ∧ ((func (signals.map fun s => s.value_reference) signals.length).1 = .fmi2OK →
        ∃ m, (FmuInstance.get signals func).2 = .ok m ∧
          ∀ v, (lookupSv v m).isSome ↔ ∃ s ∈ signals, s.name = v.name)
    ∧ (∀ st, (func (signals.map fun s => s.value_reference) signals.length).1 = st →
        st ≠ .fmi2OK →
        (FmuInstance.get signals func).2 = .error (.badFunctionCall st)) := by
  cases hf : func (signals.map fun s => s.value_reference) signals.length with
  | mk status values =>
    rw [hf] at hbuf
    refine ⟨by simp [FmuInstance.get, hf], ?_, ?_⟩
    · intro hok
      simp only [hf] at hok
      subst hok
      refine ⟨collectSv (signals.zip values), by simp [FmuInstance.get, hf], ?_⟩
      intro v
      rw [lookupSv_collectSv_isSome]
      exact exists_fst_zip signals values hbuf (fun s => s.name = v.name)
    · intro st hst hne
      simp only [hf] at hst
      subst hst
      cases status <;> simp_all [FmuInstance.get, hf]

/-- A concrete one-variable request for the `get` contract. -/
def getSignals0 : List ScalarVariable := [svA]

/-- A concrete native oracle answering the one-variable request with
`fmi2OK` and one output value. -/
def getFunc0 : List Nat → Nat → fmi2Status × List Int :=
  fun _ _ => (.fmi2OK, [42])

theorem get_one_call_all_or_nothing_witness :
    (FmuInstance.get getSignals0 getFunc0).1
      = [{ vrs := getSignals0.map fun s => s.value_reference,
           nvr := getSignals0.length, buffer_len := getSignals0.length }]
    ∧ ((getFunc0 (getSignals0.map fun s => s.value_reference) getSignals0.length).1
        = .fmi2OK →
        ∃ m, (FmuInstance.get getSignals0 getFunc0).2 = .ok m ∧
          ∀ v, (lookupSv v m).isSome ↔ ∃ s ∈ getSignals0, s.name = v.name)
    ∧ (∀ st,
        (getFunc0 (getSignals0.map fun s => s.value_reference) getSignals0.length).1
          = st →
        st ≠ .fmi2OK →
        (FmuInstance.get getSignals0 getFunc0).2
          = .error (.badFunctionCall st)) :=
  get_one_call_all_or_nothing getSignals0 getFunc0 rfl

/-- C2: for every model description and requested simulation mode,
`Fmu::load` fails with the mode-not-supported error matching the requested
mode whenever the corresponding capability block is absent, and returns an
error (never producing a `LoadRequest`, i.e. never reaching
`FmuLibrary::load` and the dynamic-library open) in that case. -/
theorem load_mode_not_supported (fmu : Fmu) (os arch : String) :
    (fmu.model_description.co_simulation = none →
      fmu.load .fmi2CoSimulation os arch = .error .noCoSimulationModel)
    ∧ (fmu.model_description.model_exchange = none →
      fmu.load .fmi2ModelExchange os arch = .error .noModelExchangeModel) := by
  constructor
  · intro h
    simp [Fmu.load, h]
  · intro h
    simp [Fmu.load, h]

/-- A concrete model description that declares neither capability block. -/
def mdNoModes : FmiModelDescription :=
  { co_simulation := none, model_exchange := none,
    model_variables := { scalar_variable := [] },
    unit_definitions := none, log_categories := none,
    default_experiment := none, fmi_version := "2.0", model_name := "m",
    guid := "g", description := "", author := "", version := "",
    copyright := "", license := "", generation_tool := "",
    generation_date_and_time := "", variable_naming_convention := "",
    number_of_event_indicators := "" }

/-- A concrete unpacked FMU whose description declares no capability block. -/
def fmuNoModes : Fmu :=
  { temp_dir := none, unpacked_dir := "/tmp/unpacked",
    model_description := mdNoModes }

theorem load_mode_not_supported_witness :
    fmuNoModes.load .fmi2CoSimulation "linux" "x86_64"
        = .error .noCoSimulationModel
    ∧ fmuNoModes.load .fmi2ModelExchange "linux" "x86_64"
        = .error .noModelExchangeModel :=
  ⟨(load_mode_not_supported fmuNoModes "linux" "x86_64").1 rfl,
   (load_mode_not_supported fmuNoModes "linux" "x86_64").2 rfl⟩

/-- C5: `setup_experiment` passes the start time through unchanged, sets
each defined-flag to true exactly when the corresponding optional argument
is `Some`, passes the optional value itself when present, and the 0.0
placeholder when absent. -/
theorem setup_experiment_marshaling (start_time : Float)
    (stop_time tolerance : Option Float) :
    (FmuInstance.setup_experiment start_time stop_time tolerance).start_time
        = start_time
    ∧ (FmuInstance.setup_experiment start_time stop_time tolerance).tolerance_defined
        = tolerance.isSome
    ∧ (FmuInstance.setup_experiment start_time stop_time tolerance).stop_time_defined
        = stop_time.isSome
    ∧ (∀ x, tolerance = some x →
        (FmuInstance.setup_experiment start_time stop_time tolerance).tolerance = x)
    ∧ (tolerance = none →
        (FmuInstance.setup_experiment start_time stop_time tolerance).tolerance = 0.0)
    ∧ (∀ x, stop_time = some x →
        (FmuInstance.setup_experiment start_time stop_time tolerance).stop_time = x)
    ∧ (stop_time = none →
        (FmuInstance.setup_experiment start_time stop_time tolerance).stop_time
          = 0.0) := by
  refine ⟨rfl, rfl, rfl, ?_, ?_, ?_, ?_⟩
  · intro x hx; rw [hx]; rfl
  · intro hx; rw [hx]; rfl
  · intro x hx; rw [hx]; rfl
  · intro hx; rw [hx]; rfl

theorem setup_experiment_marshaling_witness :
    (FmuInstance.setup_experiment 1.5 (some 2.5) none).start_time = 1.5
    ∧ (FmuInstance.setup_experiment 1.5 (some 2.5) none).tolerance_defined
        = (none : Option Float).isSome
    ∧ (FmuInstance.setup_experiment 1.5 (some 2.5) none).stop_time_defined
        = (some (2.5 : Float)).isSome
    ∧ (FmuInstance.setup_experiment 1.5 (some 2.5) none).tolerance = 0.0
    ∧ (FmuInstance.setup_experiment 1.5 (some 2.5) none).stop_time = 2.5 :=
  ⟨(setup_experiment_marshaling 1.5 (some 2.5) none).1,
   (setup_experiment_marshaling 1.5 (some 2.5) none).2.1,
   (setup_experiment_marshaling 1.5 (some 2.5) none).2.2.1,
   (setup_experiment_marshaling 1.5 (some 2.5) none).2.2.2.2.1 rfl,
   (setup_experiment_marshaling 1.5 (some 2.5) none).2.2.2.2.2.1 2.5 rfl⟩

theorem digitChar_toNat (n : Nat) (h : n < 10) :
    (Nat.digitChar n).toNat = 48 + n := by
  interval_cases n <;> decide

theorem foldl_decimalDigits (n : Nat) : ∀ a : Nat,
    List.foldl (fun x c => x * 10 + (c.toNat - 48)) a (decimalDigits n)
      = a * 10 ^ (decimalDigits n).length + n := by
  induction n using Nat.strong_induction_on with
  | _ n ih =>
    intro a
    by_cases h : n < 10
    · rw [decimalDigits]
      simp only [h, dite_true, reduceDIte]
      simp only [List.foldl_cons, List.foldl_nil, List.length_cons,
        List.length_nil, pow_one, Nat.zero_add]
      rw [digitChar_toNat n h]
      omega
    · rw [decimalDigits]
      simp only [h, dite_false, reduceDIte]
      rw [List.foldl_append]
      rw [ih (n / 10) (Nat.div_lt_self (by omega) (by omega)) a]
      simp only [List.foldl_cons, List.foldl_nil, List.length_append,
        List.length_cons, List.length_nil, Nat.zero_add]
      rw [digitChar_toNat (n % 10) (Nat.mod_lt n (by omega))]
      rw [Nat.add_sub_cancel_left, pow_succ]
      have hd : n / 10 * 10 + n % 10 = n := Nat.div_add_mod' n 10
      have key : ∀ M : Nat, (M + n / 10) * 10 + n % 10 = M * 10 + n := by
        intro M
        have e : (M + n / 10) * 10 + n % 10 = M * 10 + (n / 10 * 10 + n % 10) := by
          ring
        rw [e, hd]
      rw [key (a * 10 ^ (decimalDigits (n / 10)).length)]
      ring

theorem decimalDigits_injective : Function.Injective decimalDigits := by
  intro m n h
  have hm := foldl_decimalDigits m 0
  have hn := foldl_decimalDigits n 0
  rw [h] at hm
  simp only [Nat.zero_mul, Nat.zero_add] at hm hn
  exact hm.symm.trans hn

theorem natToDecimalString_injective : Function.Injective natToDecimalString := by
  intro m n h
  apply decimalDigits_injective
  have h2 : (decimalDigits m).asString.data = (decimalDigits n).asString.data :=
    congrArg String.data h
  exact h2

theorem string_append_left_cancel (a b c : String) (h : a ++ b = a ++ c) :
    b = c := by
  have h2 : (a ++ b).data = (a ++ c).data := congrArg String.data h
  simp only [String.data_append] at h2
  have h3 : b.data = c.data := List.append_cancel_left h2
  cases b
  cases c
  simp_all

/-- The factory state after `n` instantiations starting from
`InstanceNameFactory::new`. -/
def factoryAfter (id : String) : Nat → InstanceNameFactory
  | 0 => InstanceNameFactory.new id
  | n + 1 => ((factoryAfter id n).next).2

/-- The instance name generated by the `n`-th instantiation (0-indexed). -/
def nthInstanceName (id : String) (n : Nat) : String :=
  ((factoryAfter id n).next).1

theorem factoryAfter_counter (id : String) (n : Nat) :
    (factoryAfter id n).model_identifier = id ∧
    (factoryAfter id n).instance_counter = n % 2 ^ 64 := by
  induction n with
  | zero => exact ⟨rfl, by simp [factoryAfter, InstanceNameFactory.new]⟩
  | succ n ih =>
    refine ⟨by simp [factoryAfter, InstanceNameFactory.next, ih.1], ?_⟩
    simp only [factoryAfter, InstanceNameFactory.next, ih.2]
    rw [Nat.add_mod n 1]
    norm_num

/-- C4 counterexample: the 0th and the `2 ^ 64`-th instantiation are
distinct instantiations of the same library, yet the wrapped counter factors
both ordinals through `% 2 ^ 64`, so they generate the same instance name —
refuting the claim that any two distinct instantiations produce distinct
names. -/
theorem instance_names_wrap_counterexample :
    nthInstanceName "model" 0 = nthInstanceName "model" (2 ^ 64)
    ∧ (0 : Nat) ≠ 2 ^ 64 := by
  constructor
  · have h0 := factoryAfter_counter "model" 0
    have h1 := factoryAfter_counter "model" (2 ^ 64)
    simp only [nthInstanceName, InstanceNameFactory.next]
    rw [h0.1, h0.2, h1.1, h1.2]
    norm_num
  · norm_num

/-- C4 (amended): the per-library instance counter starts at 0 and each
instantiation fetch-adds 1 wrapping modulo `2 ^ 64`, formatting the fetched
value as `<modelIdentifier>_<ordinal>`; two instantiations produce distinct
instance names whenever their indices differ modulo `2 ^ 64` — in
particular any two distinct instantiations among the first `2 ^ 64` of a
library. Once the counter wraps, ordinals and names repeat. -/
theorem instance_names_unique_modulo_wrap (id : String) (i j : Nat)
    (hij : i % 2 ^ 64 ≠ j % 2 ^ 64) :
    (InstanceNameFactory.new id).instance_counter = 0
    ∧ (∀ f : InstanceNameFactory,
        f.next.2.instance_counter = (f.instance_counter + 1) % 2 ^ 64 ∧
        f.next.2.model_identifier = f.model_identifier ∧
        f.next.1 = f.model_identifier ++ "_" ++ natToDecimalString f.instance_counter)
    ∧ nthInstanceName id i ≠ nthInstanceName id j := by
  refine ⟨rfl, fun f => ⟨rfl, rfl, rfl⟩, ?_⟩
  intro h
  apply hij
  have hi := factoryAfter_counter id i
  have hj := factoryAfter_counter id j
  simp only [nthInstanceName, InstanceNameFactory.next] at h
  rw [hi.1, hi.2, hj.1, hj.2] at h
  have h2 : natToDecimalString (i % 2 ^ 64) = natToDecimalString (j % 2 ^ 64) :=
    string_append_left_cancel (id ++ "_") _ _ h
  exact natToDecimalString_injective h2

theorem instance_names_unique_modulo_wrap_witness :
    (InstanceNameFactory.new "model").instance_counter = 0
    ∧ (InstanceNameFactory.next ⟨"model", 5⟩).2.instance_counter
        = (5 + 1) % 2 ^ 64
    ∧ (InstanceNameFactory.next ⟨"model", 5⟩).1
        = "model" ++ "_" ++ natToDecimalString 5
    ∧ nthInstanceName "model" 0 ≠ nthInstanceName "model" 1 :=
  ⟨(instance_names_unique_modulo_wrap "model" 0 1 (by norm_num)).1,
   ((instance_names_unique_modulo_wrap "model" 0 1 (by norm_num)).2.1
      ⟨"model", 5⟩).1,
   ((instance_names_unique_modulo_wrap "model" 0 1 (by norm_num)).2.1
      ⟨"model", 5⟩).2.2,
   (instance_names_unique_modulo_wrap "model" 0 1 (by norm_num)).2.2⟩

/-- C6: `serialized_fmu_state_size` performs exactly the three native calls
`fmi2GetFMUstate`, `fmi2SerializedFMUstateSize`, `fmi2FreeFMUstate` in that
order when each succeeds, its only durable output being the size written
through the out-parameter; at the first non-OK status it stops (issuing no
further native call) and returns `BadFunctionCall` carrying that status. -/
theorem serialized_fmu_state_size_protocol (native : SnapshotNative)
    (size0 : Nat) :
    (∀ st n, native.getFMUstate = (.fmi2OK, st) →
      native.serializedFMUstateSize st = (.fmi2OK, n) →
      native.freeFMUstate st = .fmi2OK →
      FmuInstance.serialized_fmu_state_size native size0
        = ([.getFMUstate, .serializedFMUstateSize st, .freeFMUstate st], n,
            .ok ()))
    ∧ (∀ s st, native.getFMUstate = (s, st) → s ≠ .fmi2OK →
      FmuInstance.serialized_fmu_state_size native size0
        = ([.getFMUstate], size0, .error (.badFunctionCall s)))
    ∧ (∀ s st n, native.getFMUstate = (.fmi2OK, st) →
      native.serializedFMUstateSize st = (s, n) → s ≠ .fmi2OK →
      FmuInstance.serialized_fmu_state_size native size0
        = ([.getFMUstate, .serializedFMUstateSize st], n,
            .error (.badFunctionCall s)))
    ∧ (∀ s st n, native.getFMUstate = (.fmi2OK, st) →
      native.serializedFMUstateSize st = (.fmi2OK, n) →
      native.freeFMUstate st = s → s ≠ .fmi2OK →
      FmuInstance.serialized_fmu_state_size native size0
        = ([.getFMUstate, .serializedFMUstateSize st, .freeFMUstate st], n,
            .error (.badFunctionCall s))) := by
  refine ⟨?_, ?_, ?_, ?_⟩
  · intro st n h1 h2 h3
    simp [FmuInstance.serialized_fmu_state_size, h1, h2, h3]
  · intro s st h1 hs
    cases s <;>
      simp_all [FmuInstance.serialized_fmu_state_size]
  · intro s st n h1 h2 hs
    cases s <;>
      simp_all [FmuInstance.serialized_fmu_state_size]
  · intro s st n h1 h2 h3 hs
    cases s <;>
      simp_all [FmuInstance.serialized_fmu_state_size]

/-- A concrete snapshot oracle: capture yields handle 7 with status OK, the
serialized size is 12, every other entry point returns OK. -/
def snapNative0 : SnapshotNative :=
  { getFMUstate := (.fmi2OK, 7)
    serializedFMUstateSize := fun _ => (.fmi2OK, 12)
    serializeFMUstate := fun _ _ => .fmi2OK
    deSerializeFMUstate := fun _ => (.fmi2OK, 9)
    setFMUstate := fun _ => .fmi2OK
    freeFMUstate := fun _ => .fmi2OK }

theorem serialized_fmu_state_size_protocol_witness :
    FmuInstance.serialized_fmu_state_size snapNative0 0
      = ([.getFMUstate, .serializedFMUstateSize 7, .freeFMUstate 7], 12,
          .ok ()) :=
  (serialized_fmu_state_size_protocol snapNative0 0).1 7 12 rfl rfl rfl

/-- C8 counterexample: with the all-OK oracle, a zero-length byte slice and
`size = 1`, both `serialize_fmu_state` and `deserialize_fmu_state` issue
their native calls with count 1 against a slice of length 0 — the wrappers
reach the native side although the slice length differs from the declared
count, so the claimed length-matches-count pre-condition check does not
exist. -/
theorem serialize_no_length_check_counterexample :
    (FmuInstance.serialize_fmu_state snapNative0 [] 1).1
      = [.getFMUstate, .serializeFMUstate 7 0 1, .freeFMUstate 7]
    ∧ (FmuInstance.deserialize_fmu_state snapNative0 [] 1).1
      = [.deSerializeFMUstate 0 1, .setFMUstate 9, .freeFMUstate 9]
    ∧ List.length ([] : List UInt8) ≠ 1 :=
  ⟨rfl, rfl, by decide⟩

/-- C8 (amended): every returned status code is checked — any non-OK status
at any step of `serialize_fmu_state` / `deserialize_fmu_state` stops the
sequence and is surfaced as `BadFunctionCall` carrying it — but neither
wrapper compares the byte-slice length against the `size` argument: the
native call is always issued with the slice as-is and the caller's `size`. -/
theorem serialize_deserialize_statuses_checked (native : SnapshotNative)
    (buf : List UInt8) (size : Nat) :
    (∀ s st, native.getFMUstate = (s, st) → s ≠ .fmi2OK →
      FmuInstance.serialize_fmu_state native buf size
        = ([.getFMUstate], .error (.badFunctionCall s)))
    ∧ (∀ st, native.getFMUstate = (.fmi2OK, st) →
      ((FmuInstance.serialize_fmu_state native buf size).1).take 2
        = [.getFMUstate, .serializeFMUstate st buf.length size])
    ∧ (∀ s st, native.getFMUstate = (.fmi2OK, st) →
      native.serializeFMUstate st size = s → s ≠ .fmi2OK →
      FmuInstance.serialize_fmu_state native buf size
        = ([.getFMUstate, .serializeFMUstate st buf.length size],
            .error (.badFunctionCall s)))
    ∧ (∀ s st, native.getFMUstate = (.fmi2OK, st) →
      native.serializeFMUstate st size = .fmi2OK →
      native.freeFMUstate st = s → s ≠ .fmi2OK →
      FmuInstance.serialize_fmu_state native buf size
        = ([.getFMUstate, .serializeFMUstate st buf.length size,
            .freeFMUstate st], .error (.badFunctionCall s)))
    ∧ ((FmuInstance.deserialize_fmu_state native buf size).1.head?
        = some (.deSerializeFMUstate buf.length size))
    ∧ (∀ s st, native.deSerializeFMUstate size = (s, st) → s ≠ .fmi2OK →
      FmuInstance.deserialize_fmu_state native buf size
        = ([.deSerializeFMUstate buf.length size],
            .error (.badFunctionCall s)))
    ∧ (∀ s st, native.deSerializeFMUstate size = (.fmi2OK, st) →
      native.setFMUstate st = s → s ≠ .fmi2OK →
      FmuInstance.deserialize_fmu_state native buf size
        = ([.deSerializeFMUstate buf.length size, .setFMUstate st],
            .error (.badFunctionCall s)))
    ∧ (∀ s st, native.deSerializeFMUstate size = (.fmi2OK, st) →
      native.setFMUstate st = .fmi2OK →
      native.freeFMUstate st = s → s ≠ .fmi2OK →
      FmuInstance.deserialize_fmu_state native buf size
        = ([.deSerializeFMUstate buf.length size, .setFMUstate st,
            .freeFMUstate st], .error (.badFunctionCall s))) := by
  refine ⟨?_, ?_, ?_, ?_, ?_, ?_, ?_, ?_⟩
  · intro s st h1 hs
    cases s <;> simp_all [FmuInstance.serialize_fmu_state]
  · intro st h1
    cases hs2 : native.serializeFMUstate st size <;>
      cases hs3 : native.freeFMUstate st <;>
        simp [FmuInstance.serialize_fmu_state, h1, hs2, hs3]
  · intro s st h1 h2 hs
    cases s <;> simp_all [FmuInstance.serialize_fmu_state]
  · intro s st h1 h2 h3 hs
    cases s <;> simp_all [FmuInstance.serialize_fmu_state]
  · cases hds : native.deSerializeFMUstate size with
    | mk s1 st =>
      cases s1 <;> cases hs2 : native.setFMUstate st <;>
        cases hs3 : native.freeFMUstate st <;>
          simp [FmuInstance.deserialize_fmu_state, hds, hs2, hs3]
  · intro s st h1 hs
    cases s <;> simp_all [FmuInstance.deserialize_fmu_state]
  · intro s st h1 h2 hs
    cases s <;> simp_all [FmuInstance.deserialize_fmu_state]
  · intro s st h1 h2 h3 hs
    cases s <;> simp_all [FmuInstance.deserialize_fmu_state]

theorem serialize_deserialize_statuses_checked_witness :
    ((FmuInstance.serialize_fmu_state snapNative0 [] 1).1).take 2
      = [.getFMUstate, .serializeFMUstate 7 0 1]
    ∧ (FmuInstance.deserialize_fmu_state snapNative0 [] 1).1.head?
      = some (.deSerializeFMUstate 0 1) :=
  ⟨(serialize_deserialize_statuses_checked snapNative0 [] 1).2.1 7 rfl,
   (serialize_deserialize_statuses_checked snapNative0 [] 1).2.2.2.2.1⟩

/-- C7: for a non-existent or unreadable bundle path, the ephemeral form
`Fmu::unpack` fails with the invalid-file error kind; its trace shows the
path is canonicalized before any file open, no extraction ever occurs, and
the temporary directory it created is dropped (deleted) before returning,
leaving no partially-extracted directory behind. -/
theorem unpack_invalid_file_no_extraction (fs : FS) (p d : FsPath) (e : IOErr)
    (htd : fs.tempdir = .ok d) :
    (fs.canonicalize p = .error e →
      Fmu.unpack fs p
        = ([.createTempDir d, .canonicalize p, .dropTempDir d],
            .err (.invalidFile e)))
    ∧ (∀ q, fs.canonicalize p = .ok q → fs.openFile q = .error e →
      Fmu.unpack fs p
        = ([.createTempDir d, .canonicalize p, .openFile q, .dropTempDir d],
            .err (.invalidFile e))) := by
  constructor
  · intro h
    simp [Fmu.unpack, htd, Fmu.unpack_to, h]
  · intro q hq h
    simp [Fmu.unpack, htd, Fmu.unpack_to, hq, h]

/-- A concrete environment in which the bundle path cannot be
canonicalized (it does not exist). -/
def fsMissingBundle : FS :=
  { tempdir := .ok "/tmp/fmi-runner0"
    canonicalize := fun _ => .error "NotFound"
    openFile := fun _ => .error "NotFound"
    zipNew := fun _ => .error (.other "unused")
    extract := fun _ _ => .error (.other "unused")
    readToString := fun _ => .error "unused"
    parseXml := fun _ => .error "unused" }

theorem unpack_invalid_file_no_extraction_witness :
    Fmu.unpack fsMissingBundle "missing.fmu"
      = ([.createTempDir "/tmp/fmi-runner0", .canonicalize "missing.fmu",
          .dropTempDir "/tmp/fmi-runner0"],
          .err (.invalidFile "NotFound")) :=
  (unpack_invalid_file_no_extraction fsMissingBundle "missing.fmu"
    "/tmp/fmi-runner0" "NotFound" rfl).1 rfl

/-- A concrete environment in which the bundle path exists, is readable and
is a valid archive that extracts cleanly, but the extracted tree contains no
readable `modelDescription.xml` (for instance, an empty zip): reading the
description file fails. -/
def fsNoModelDescription : FS :=
  { tempdir := .ok "/tmp/fmi-runner1"
    canonicalize := fun _ => .ok "/abs/model.fmu"
    openFile := fun _ => .ok "model.fmu-handle"
    zipNew := fun _ => .ok "model.fmu-archive"
    extract := fun _ _ => .ok ()
    readToString := fun _ => .error "NotFound"
    parseXml := fun _ => .error "unused" }

/-- C1 (code bug): `unpack_to` on a readable, valid zip bundle that simply
lacks `modelDescription.xml` does not return one of the `FmuUnpackError`
kinds — it panics, because `FmiModelDescription::new` calls
`fs::read_to_string(path).unwrap()`. -/
theorem unpack_to_panics_on_missing_model_description :
    (Fmu.unpack_to fsNoModelDescription "model.fmu" "/out").2
      = .panic "NotFound" := rfl
